import Mathlib

/-!
Verification of the migration-demo repository: a shallow embedding of the
migration workflow engine (`src/migration_workflow.py`), the Alibaba provider
client (`src/aliyun_mcp_client.py`) and the CDK code generator
(`src/cdk-mcp-cli/cdk_cli.py`), together with theorems settling the frozen
claims about the natural-language specification.

Conventions of the embedding:
- Python dictionaries / JSON values are modelled by the inductive `Json`
  (dictionaries keep insertion order as an association list).
- Python exceptions are modelled by `Except String`; a `try/except` block is a
  `match` on the `Except` value.
- Python truthiness (`if x:`, `x or y`) is modelled by `Json.truthy` / `pyOr`.
- Subprocess invocations, file writes, node executions and session cleanups
  are recorded in an event trace so that claims about "no subprocess ran" or
  "cleanup always happens" can be stated.
-/

/-- JSON values / Python dictionaries, as produced by `json.loads` and
manipulated throughout the source. Object fields keep insertion order. -/
inductive Json where
  | null
  | bool (b : Bool)
  | num (n : Int)
  | str (s : String)
  | arr (xs : List Json)
  | obj (fields : List (String × Json))

/-- Python truthiness of a value (`bool(x)`): `None`, `False`, `0`, `""`,
`[]`, `{}` are falsy, everything else truthy. -/
def Json.truthy : Json → Bool
  | .null => false
  | .bool b => b
  | .num n => n != 0
  | .str s => s != ""
  | .arr xs => !xs.isEmpty
  | .obj fs => !fs.isEmpty

/-- Ordered association-list lookup, the semantics of reading a key of a
Python dict (first binding wins; the source never builds duplicate keys). -/
def lookupFields : List (String × Json) → String → Option Json
  | [], _ => none
  | (k, v) :: rest, key => if k == key then some v else lookupFields rest key

/-- Field lookup on a JSON value: `some v` when the value is an object with
the key, `none` otherwise.  Used to state properties of produced records. -/
def jsonLookup : Json → String → Option Json
  | .obj fs, key => lookupFields fs key
  | _, _ => none

/-- Boolean key-membership test on an object's field list. -/
def hasKeyB : Json → String → Bool
  | .obj fs, key => (lookupFields fs key).isSome
  | _, _ => false

/-- Python `x or y` on values: `x` when truthy, else `y`. -/
def pyOr (x y : Json) : Json := if x.truthy then x else y

/-- Python `x == s` where `s` is a `str`: true exactly when `x` is an equal
string (values of other types never equal a string). -/
def pyEqStr (x : Json) (s : String) : Bool :=
  match x with
  | .str t => t == s
  | _ => false

/-- Python `dict.get(key)` (default `None`), raising `AttributeError` when the
receiver is not a dict (only dicts have `.get` among the value shapes the
source handles). -/
def pyDictGet : Json → String → Except String Json
  | .obj fs, key =>
      .ok (match lookupFields fs key with
           | some v => v
           | none => Json.null)
  | _, _ => .error ("AttributeError: get")

/-- Total variant of `dict.get(key)` on a raw field list, default `None`. -/
def dictGetD (fs : List (String × Json)) (key : String) : Json :=
  match lookupFields fs key with
  | some v => v
  | none => Json.null

/-- First-occurrence split: `some (before, after)` when `needle` occurs in
`hay`, where `hay = before ++ needle ++ after` and `before` is shortest. -/
def splitOnSubAux (needle : List Char) : List Char → Option (List Char × List Char)
  | [] => if needle.isEmpty then some ([], []) else none
  | c :: rest =>
      if needle.isPrefixOf (c :: rest) then
        some ([], (c :: rest).drop needle.length)
      else
        match splitOnSubAux needle rest with
        | some (a, b) => some (c :: a, b)
        | none => none

/-- Python `key in x` for a string key: key-membership for dicts, element
membership for lists, substring test for strings, `TypeError` otherwise. -/
def pyContains (key : String) : Json → Except String Bool
  | .obj fs => .ok (lookupFields fs key).isSome
  | .arr xs => .ok (xs.any (fun v => pyEqStr v key))
  | .str s => .ok (splitOnSubAux key.data s.data).isSome
  | _ => .error ("TypeError: argument of type is not iterable")

/-- Python `x[key]` subscription by a string key: dict lookup raising
`KeyError` on a missing key, `TypeError` on non-dicts (string/list
subscription needs an integer index). -/
def pySubscriptStr : Json → String → Except String Json
  | .obj fs, key =>
      match lookupFields fs key with
      | some v => .ok v
      | none => .error ("\x27" ++ key ++ "\x27")
  | _, _ => .error ("TypeError: indices must be integers")

/-- Python `x[0]`: first element of a list (IndexError when empty), first
character of a string, `TypeError`/`KeyError` otherwise. -/
def pyIndex0 : Json → Except String Json
  | .arr [] => .error ("IndexError: list index out of range")
  | .arr (x :: _) => .ok x
  | .str s =>
      match s.data with
      | [] => .error ("IndexError: string index out of range")
      | c :: _ => .ok (.str (String.mk [c]))
  | .obj _ => .error ("KeyError: 0")
  | _ => .error ("TypeError: object is not subscriptable")

/-- Python iteration `for v in x`: elements for lists, characters for
strings, keys for dicts, `TypeError` otherwise. -/
def pyIter : Json → Except String (List Json)
  | .arr xs => .ok xs
  | .str s => .ok (s.data.map (fun c => .str (String.mk [c])))
  | .obj fs => .ok (fs.map (fun kv => .str kv.1))
  | _ => .error ("TypeError: object is not iterable")

/-- Python `str.replace` for a single-character pattern and replacement (the
only form the source uses, `replace("-", "_")`), which is a per-character map. -/
def pyReplaceChar (pat rep : Char) (s : String) : String :=
  String.mk (s.data.map (fun c => if c == pat then rep else c))

/-- Python `.replace("-", "_")` followed by nothing else: raises
`AttributeError` when the receiver is not a string. -/
def pyStrReplaceDash : Json → Except String String
  | .str s => .ok (pyReplaceChar ('-') ('_') s)
  | _ => .error ("AttributeError: replace")

/-- Whitespace characters of Python `str.strip()` and of the regex `\s`
class: space, tab, newline, carriage return, vertical tab, form feed. -/
def pySpace (c : Char) : Bool :=
  c == (' ') || c == ('\t') || c == ('\n') || c == ('\r') ||
  c == (Char.ofNat 11) || c == (Char.ofNat 12)

/-- Python `str.strip()`: drop leading and trailing whitespace. -/
def trimChars (l : List Char) : List Char :=
  ((l.dropWhile pySpace).reverse.dropWhile pySpace).reverse

/-- Decimal digit accumulation for `pyInt`; `none` on a non-digit. -/
def digitsToNat (acc : Nat) : List Char → Option Nat
  | [] => some acc
  | c :: rest =>
      if c.isDigit then digitsToNat (acc * 10 + (c.toNat - 48)) rest
      else none

/-- Decimal integer parse of Python `int(str)`: optional surrounding
whitespace, optional sign, one or more digits. -/
def pyParseInt (s : String) : Option Int :=
  match trimChars s.data with
  | [] => none
  | c :: rest =>
      if c == ('-') then
        match rest with
        | [] => none
        | _ => (digitsToNat 0 rest).map (fun n => -(n : Int))
      else if c == ('+') then
        match rest with
        | [] => none
        | _ => (digitsToNat 0 rest).map (fun n => (n : Int))
      else (digitsToNat 0 (c :: rest)).map (fun n => (n : Int))

/-- Python `int(x)`: identity on ints, decimal parse on strings
(`ValueError` on failure), 1/0 on bools, `TypeError` otherwise. -/
def pyInt : Json → Except String Int
  | .num n => .ok n
  | .str s =>
      match pyParseInt s with
      | some n => .ok n
      | none => .error ("ValueError: invalid literal for int")
  | .bool b => .ok (if b then 1 else 0)
  | _ => .error ("TypeError: int argument")

/-- Rendering of a value inside a Python f-string (`str(x)`), for the
primitive shapes the claims exercise; composite values are rendered by a
placeholder (no claim inspects a composite rendered this way). -/
def pyStrAtom : Json → String
  | .str s => s
  | .num n => toString n
  | .bool b => if b then "True" else "False"
  | .null => "None"
  | .arr _ => "[...]"
  | .obj _ => "\x7b...\x7d"

/-- Enumerate a list with indices starting at `i` (Python `enumerate`). -/
def enumFrom {α : Type} (i : Nat) : List α → List (Nat × α)
  | [] => []
  | x :: xs => (i, x) :: enumFrom (i + 1) xs

/-- `Except`-valued map over a list, failing at the first failure (the
semantics of a Python `for` loop whose body may raise). -/
def exceptMapM {α β : Type} (f : α → Except String β) : List α → Except String (List β)
  | [] => .ok []
  | x :: xs => do
      let y ← f x
      let ys ← exceptMapM f xs
      pure (y :: ys)

/-- `AliyunMCPClient._get_mock_vpc_data`: the deterministic synthetic VPC
substituted when real data cannot be obtained.  `vpc_id or "vpc-mock-123456"`
keeps the requested id when non-empty. -/
def get_mock_vpc_data (vpc_id region : String) : Json :=
  .obj [("vpc_id", .str (if vpc_id == "" then "vpc-mock-123456" else vpc_id)),
        ("vpc_name", .str ("demo-vpc")),
        ("cidr_block", .str ("10.0.0.0/16")),
        ("region", .str region),
        ("status", .str ("Available")),
        ("vswitches", .arr
          [.obj [("vswitch_id", .str ("vsw-mock-123456")),
                 ("name", .str ("demo-subnet-1")),
                 ("cidr_block", .str ("10.0.1.0/24")),
                 ("availability_zone", .str (region ++ "-a")),
                 ("status", .str ("Available"))],
           .obj [("vswitch_id", .str ("vsw-mock-789012")),
                 ("name", .str ("demo-subnet-2")),
                 ("cidr_block", .str ("10.0.2.0/24")),
                 ("availability_zone", .str (region ++ "-b")),
                 ("status", .str ("Available"))]]),
        ("security_groups", .arr
          [.obj [("group_id", .str ("sg-mock-123456")),
                 ("name", .str ("demo-sg")),
                 ("description", .str ("Demo security group")),
                 ("rules", .arr
                   [.obj [("protocol", .str ("tcp")), ("port", .str ("80")),
                          ("source", .str ("0.0.0.0/0")), ("direction", .str ("ingress"))],
                    .obj [("protocol", .str ("tcp")), ("port", .str ("443")),
                          ("source", .str ("0.0.0.0/0")), ("direction", .str ("ingress"))]])]])]

/-- The hard-coded fallback VPC record of `extract_alibaba_vpc`'s `except`
branch (`migration_workflow.py` lines 122-151); note its id is the fixed
`vpc-fallback-123456`, not the requested id. -/
def extract_fallback_vpc_data : Json :=
  .obj [("vpc_id", .str ("vpc-fallback-123456")),
        ("vpc_name", .str ("demo-vpc")),
        ("cidr_block", .str ("10.0.0.0/16")),
        ("region", .str ("cn-hangzhou")),
        ("vswitches", .arr
          [.obj [("vswitch_id", .str ("vsw-fallback-123456")),
                 ("name", .str ("demo-subnet-1")),
                 ("cidr_block", .str ("10.0.1.0/24")),
                 ("availability_zone", .str ("cn-hangzhou-a"))],
           .obj [("vswitch_id", .str ("vsw-fallback-789012")),
                 ("name", .str ("demo-subnet-2")),
                 ("cidr_block", .str ("10.0.2.0/24")),
                 ("availability_zone", .str ("cn-hangzhou-b"))]]),
        ("security_groups", .arr
          [.obj [("group_id", .str ("sg-fallback-123456")),
                 ("name", .str ("demo-sg")),
                 ("rules", .arr
                   [.obj [("protocol", .str ("tcp")), ("port", .str ("80")),
                          ("source", .str ("0.0.0.0/0"))],
                    .obj [("protocol", .str ("tcp")), ("port", .str ("443")),
                          ("source", .str ("0.0.0.0/0"))]])]])]

/-- Envelope unwrapping step of `_convert_alibaba_vpc_format`:
`data = alibaba_data['body'] if 'body' in alibaba_data else alibaba_data`. -/
def unwrapBody (alibaba : Json) : Except String Json := do
  let hasBody ← pyContains ("body") alibaba
  if hasBody then pySubscriptStr alibaba ("body") else pure alibaba

/-- The probing `if/elif` chain locating the VPC collection
(`Vpcs.Vpc`, then `vpcs`, then `Vpc`); `vpcs = []` when none applies. -/
def chooseVpcs (data : Json) : Except String Json := do
  let b1 ← pyContains ("Vpcs") data
  let cond1 ← if b1 then do
      let inner ← pySubscriptStr data ("Vpcs")
      pyContains ("Vpc") inner
    else pure false
  if cond1 then do
    let inner ← pySubscriptStr data ("Vpcs")
    pySubscriptStr inner ("Vpc")
  else do
    let b2 ← pyContains ("vpcs") data
    if b2 then pySubscriptStr data ("vpcs")
    else do
      let b3 ← pyContains ("Vpc") data
      if b3 then do
        let v ← pySubscriptStr data ("Vpc")
        pure (match v with
              | .obj fs => Json.arr [.obj fs]
              | other => other)
      else pure (Json.arr [])

/-- The selection loop: first entry whose `VpcId` or `vpc_id` equals the
requested id (case-sensitive string equality), scanning left to right. -/
def findMatching (elems : List Json) (vpc_id : String) : Except String (Option Json) :=
  match elems with
  | [] => .ok none
  | v :: rest => do
      let a ← pyDictGet v ("VpcId")
      let b ← pyDictGet v ("vpc_id")
      if pyEqStr a vpc_id || pyEqStr b vpc_id then pure (some v)
      else findMatching rest vpc_id

/-- One synthesized subnet of the converter's `VSwitchIds` loop: placeholder
CIDR `10.0.(i+1).0/24` and zone `(region)-(chr (97+i))`. -/
def buildVswitch (region : String) (iv : Nat × Json) : Json :=
  .obj [("vswitch_id", iv.2),
        ("name", .str ("subnet-" ++ toString (iv.1 + 1))),
        ("cidr_block", .str ("10.0." ++ toString (iv.1 + 1) ++ ".0/24")),
        ("availability_zone", .str (region ++ "-" ++ String.mk [Char.ofNat (97 + iv.1)])),
        ("status", .str ("Available"))]

/-- The `VSwitchIds` extraction block of `_convert_alibaba_vpc_format`. -/
def extractVswitches (target : Json) (region : String) : Except String (List Json) := do
  let b1 ← pyContains ("VSwitchIds") target
  let cond ← if b1 then do
      let inner ← pySubscriptStr target ("VSwitchIds")
      pyContains ("VSwitchId") inner
    else pure false
  if cond then do
    let inner ← pySubscriptStr target ("VSwitchIds")
    let idsJ ← pySubscriptStr inner ("VSwitchId")
    let ids ← pyIter idsJ
    pure ((enumFrom 0 ids).map (buildVswitch region))
  else pure []

/-- The single default security group the converter always attaches. -/
def default_security_groups (vpc_id : String) : List Json :=
  [.obj [("group_id", .str ("sg-" ++ vpc_id)),
         ("name", .str ("default-sg")),
         ("description", .str ("Default security group")),
         ("rules", .arr
           [.obj [("protocol", .str ("tcp")), ("port", .str ("80")),
                  ("source", .str ("0.0.0.0/0")), ("direction", .str ("ingress"))],
            .obj [("protocol", .str ("tcp")), ("port", .str ("443")),
                  ("source", .str ("0.0.0.0/0")), ("direction", .str ("ingress"))]])]]

/-- The `target_vpc` selection of `_convert_alibaba_vpc_format`:
`vpcs[0]` is pre-selected; when an id was requested, the first matching
entry (if any) replaces it. -/
def selectTargetStep (vpcs first : Json) (vpc_id : String) : Except String Json :=
  if vpc_id == "" then pure first
  else do
    let elems ← pyIter vpcs
    let m ← findMatching elems vpc_id
    pure (match m with | some v => v | none => first)

/-- The record-assembly tail of `_convert_alibaba_vpc_format`, from the
selected target entry.  The source's short-circuiting `x or y or z` chains
evaluate `.get` eagerly here; this is equivalent because `.get` fails only
when the receiver is not a dict, in which case the first `.get` already
fails. -/
def convertTarget (target : Json) (vpc_id region : String) : Except String Json := do
  let vIdA ← pyDictGet target ("VpcId")
  let vIdB ← pyDictGet target ("vpc_id")
  let vNameA ← pyDictGet target ("VpcName")
  let vNameB ← pyDictGet target ("vpc_name")
  let cA ← pyDictGet target ("CidrBlock")
  let cB ← pyDictGet target ("cidr_block")
  let stA ← pyDictGet target ("Status")
  let stB ← pyDictGet target ("status")
  let vsws ← extractVswitches target region
  pure (Json.obj
    [("vpc_id", pyOr vIdA (pyOr vIdB (.str vpc_id))),
     ("vpc_name", pyOr vNameA (pyOr vNameB (.str ("vpc-" ++ vpc_id)))),
     ("cidr_block", pyOr cA (pyOr cB (.str ("10.0.0.0/16")))),
     ("region", .str region),
     ("status", pyOr stA (pyOr stB (.str ("Available")))),
     ("vswitches", .arr vsws),
     ("security_groups", .arr (default_security_groups vpc_id))])

/-- Body of the `try` block of `_convert_alibaba_vpc_format`. -/
def convertCore (alibaba : Json) (vpc_id region : String) : Except String Json := do
  let data ← unwrapBody alibaba
  let vpcs ← chooseVpcs data
  if vpcs.truthy = false then
    pure (get_mock_vpc_data vpc_id region)
  else do
    let first ← pyIndex0 vpcs
    let target ← selectTargetStep vpcs first vpc_id
    convertTarget target vpc_id region

/-- `AliyunMCPClient._convert_alibaba_vpc_format`: the `try` body with its
blanket `except` converting any exception into the synthetic mock. -/
def convert_alibaba_vpc_format (alibaba : Json) (vpc_id region : String) : Json :=
  match convertCore alibaba vpc_id region with
  | .ok j => j
  | .error _ => get_mock_vpc_data vpc_id region

/-- The availability-zone remap `az_mapping.get(az, "us-east-1a")` of
`transform_vpc_data`: a two-entry table with a fixed default. -/
def az_mapping_get (az : Json) : String :=
  if pyEqStr az ("cn-hangzhou-a") then "us-east-1a"
  else if pyEqStr az ("cn-hangzhou-b") then "us-east-1b"
  else "us-east-1a"

/-- Body of the VSwitch-to-subnet loop of `transform_vpc_data`: name with
`-` replaced by `_`, CIDR passed through, zone remapped, and the
"map public IP on launch" flag always `True`. -/
def transform_vswitch (vswitch : Json) : Except String Json := do
  let nm ← pySubscriptStr vswitch ("name")
  let nm' ← pyStrReplaceDash nm
  let cidr ← pySubscriptStr vswitch ("cidr_block")
  let az ← pySubscriptStr vswitch ("availability_zone")
  pure (.obj [("name", .str nm'),
              ("cidr", cidr),
              ("availability_zone", .str (az_mapping_get az)),
              ("map_public_ip_on_launch", .bool true)])

/-- Body of the rule loop of `transform_vpc_data`: the `port` string is
`int`-converted and used for both bounds, the source CIDR becomes a
single-element list. -/
def transform_rule (rule : Json) : Except String Json := do
  let proto ← pySubscriptStr rule ("protocol")
  let port ← pySubscriptStr rule ("port")
  let p ← pyInt port
  let src ← pySubscriptStr rule ("source")
  pure (.obj [("protocol", proto),
              ("from_port", .num p),
              ("to_port", .num p),
              ("cidr_blocks", .arr [src])])

/-- Body of the security-group loop of `transform_vpc_data`. -/
def transform_security_group (sg : Json) : Except String Json := do
  let nm ← pySubscriptStr sg ("name")
  let nm' ← pyStrReplaceDash nm
  let gid ← pySubscriptStr sg ("group_id")
  let rulesJ ← pySubscriptStr sg ("rules")
  let rules ← pyIter rulesJ
  let rules' ← exceptMapM transform_rule rules
  pure (.obj [("name", .str nm'),
              ("description", .str ("Migrated from Alibaba Cloud SG " ++ pyStrAtom gid)),
              ("ingress_rules", .arr rules')])

/-- Body of the `try` block of `transform_vpc_data` (node 2): the pure
Alibaba-to-AWS schema mapping; any raised `KeyError`/`AttributeError` is the
stage's error path. -/
def transform_vpc_data_core (alibaba_data : Json) : Except String Json := do
  let vpcName ← pySubscriptStr alibaba_data ("vpc_name")
  let vpcName' ← pyStrReplaceDash vpcName
  let cidr ← pySubscriptStr alibaba_data ("cidr_block")
  let vswJ ← pySubscriptStr alibaba_data ("vswitches")
  let vsws ← pyIter vswJ
  let subnets ← exceptMapM transform_vswitch vsws
  let sgJ ← pySubscriptStr alibaba_data ("security_groups")
  let sgs ← pyIter sgJ
  let sgs' ← exceptMapM transform_security_group sgs
  pure (.obj [("vpc", .obj [("name", .str vpcName'),
                            ("cidr", cidr),
                            ("enable_dns_hostnames", .bool true),
                            ("enable_dns_support", .bool true)]),
              ("subnets", .arr subnets),
              ("security_groups", .arr sgs')])

/-- Python `str.split(sep)` for a single-character separator. -/
def splitOnChar (sep : Char) : List Char → List (List Char)
  | [] => [[]]
  | c :: rest =>
      match splitOnChar sep rest with
      | [] => [[]]
      | l :: ls => if c == sep then [] :: l :: ls else (c :: l) :: ls

/-- `'\n'.join(...)` on character lists. -/
def joinNlChars : List (List Char) → List Char
  | [] => []
  | [l] => l
  | l :: ls => l ++ ('\n') :: joinNlChars ls

/-- Substring containment test on character lists. -/
def containsSubB (needle hay : List Char) : Bool :=
  (splitOnSubAux needle hay).isSome

/-- The line test `line.strip().startswith(('import ', 'export ', 'const ',
'class ', 'interface '))` of `_extract_typescript_code`'s fallback scan. -/
def startsCodeToken (stripped : List Char) : Bool :=
  ["import ", "export ", "const ", "class ", "interface "].any
    (fun t => t.data.isPrefixOf stripped)

/-- The fixed explanatory-phrase filter of `_extract_typescript_code`,
matched case-insensitively against the whole line. -/
def isExplanationLine (l : List Char) : Bool :=
  ["this cdk code", "to use this", "notes and best", "would you like",
   "the code uses", "for production", "the stack uses"].any
    (fun p => containsSubB p.data (l.map Char.toLower))

/-- The fallback line scan of `_extract_typescript_code`: start collecting at
the first code-introducing line, drop explanatory lines while collecting. -/
def heuristicScan (inCode : Bool) : List (List Char) → List (List Char)
  | [] => []
  | l :: ls =>
      let inCode' := inCode || startsCodeToken (trimChars l)
      if inCode' then
        if isExplanationLine l then heuristicScan inCode' ls
        else l :: heuristicScan inCode' ls
      else heuristicScan inCode' ls

/-- The result of the fallback path: collected lines newline-joined and
stripped. -/
def heuristicExtract (response : String) : String :=
  String.mk (trimChars (joinNlChars (heuristicScan false (splitOnChar ('\n') response.data))))

/-- The opening marker of the regex pattern of `_extract_typescript_code`. -/
def tsFenceOpen : List Char := "```typescript".data

/-- The closing fence marker. -/
def fenceMarker : List Char := "```".data

/-- `MigrationWorkflow._extract_typescript_code`.  The regex search
(non-greedy group between the markers with `\s*` padding, first match,
then `.strip()`) equals: take the text between the first occurrence of
the opening marker and the first following fence and strip it; when the
opening marker never occurs, or occurs with no closing fence anywhere
after it (in which case no later occurrence can complete a match either,
since a later opening marker would itself contain a fence), the regex
finds nothing and the line-scan fallback runs. -/
def extract_typescript_code (response : String) : String :=
  match splitOnSubAux tsFenceOpen response.data with
  | some (_, rest) =>
      match splitOnSubAux fenceMarker rest with
      | some (mid, _) => String.mk (trimChars mid)
      | none => heuristicExtract response
  | none => heuristicExtract response

/-- One content item of a Bedrock response in `generate_cdk_code`'s loop:
a text turn or a tool-invocation request. -/
inductive ContentItem where
  | text (s : String)
  | toolUse (name id : String) (input : Json)

/-- A model response: its ordered content items. -/
abbrev LlmResponse := List ContentItem

/-- The inner `for content in response['content']` scan: texts accumulate
until the first tool-use item, whose presence breaks out for another
round-trip (items after it in the same response are never processed). -/
def scanContent : List ContentItem → List String × Bool
  | [] => ([], false)
  | .text s :: rest =>
      let r := scanContent rest
      (s :: r.1, r.2)
  | .toolUse _ _ _ :: _ => ([], true)

/-- The `while True` conversation loop of `generate_cdk_code`: the LLM
backend is modelled as the stream of outcomes of successive
`invoke_model` calls (an `Except.error` entry is an invocation that
raises).  Tool executions themselves only extend the conversation
messages, which the predetermined stream already accounts for. -/
def generationLoop : LlmResponse → List (Except String LlmResponse) → List String →
    Except String (List String)
  | items, stream, acc =>
      let st := scanContent items
      if st.2 then
        match stream with
        | [] => .error ("backend returned no further response")
        | .error e :: _ => .error e
        | .ok next :: rest => generationLoop next rest (acc ++ st.1)
      else .ok (acc ++ st.1)

/-- `CDKCodeGenerator.generate_cdk_code`: the caller-visible outcome.  An
`Except.error` result would model an exception propagating to the caller;
the source's blanket `except` instead returns the string
`"Error: ..."` normally, so every outcome is `Except.ok`. -/
def generate_cdk_code (stream : List (Except String LlmResponse)) : Except String String :=
  let core : Except String (List String) :=
    match stream with
    | [] => .error ("backend returned no response")
    | .error e :: _ => .error e
    | .ok first :: rest => generationLoop first rest []
  match core with
  | .ok texts => .ok (String.intercalate ("\n") texts)
  | .error e => .ok ("Error: " ++ e)

/-- Python `str.capitalize()`: first character upper-cased, the rest
lower-cased. -/
def pyCapitalize (w : List Char) : List Char :=
  match w with
  | [] => []
  | c :: rest => c.toUpper :: rest.map Char.toLower

/-- The stack class name used by `_create_cdk_description` and
`_fix_bin_file`: capitalized dash-separated words joined, plus `Stack`. -/
def computeClassName (project_name : String) : String :=
  String.mk (((splitOnChar ('-') project_name.data).map pyCapitalize).flatten) ++ "Stack"

/-- One subnet line of the generation description. -/
def descSubnetLine (iv : Nat × Json) : Except String String := do
  let nm ← pySubscriptStr iv.2 ("name")
  pure ("- Subnet " ++ toString (iv.1 + 1) ++ ": cidrMask=24, name=\x27" ++
        pyStrAtom nm ++ "\x27, type=PUBLIC")

/-- One security-group line of the generation description. -/
def descSgLine (sg : Json) : Except String String := do
  let rulesJ ← pySubscriptStr sg ("ingress_rules")
  let rules ← pyIter rulesJ
  let ports ← exceptMapM (fun r => do
      let p ← pySubscriptStr r ("from_port")
      pure (pyStrAtom p)) rules
  let nm ← pySubscriptStr sg ("name")
  pure ("- name=\x27" ++ pyStrAtom nm ++ "\x27, ingress_ports=[" ++
        String.intercalate (",") ports ++ "], source=0.0.0.0/0")

/-- `MigrationWorkflow._create_cdk_description`: the prompt built from the
transformed data.  The subscripts and loops (and thus the raising
behaviour) follow the source exactly; the literal prose of the
triple-quoted template is abbreviated, as no claim depends on its exact
wording. -/
def create_cdk_description (current_project_name : String) (td : Json) :
    Except String String := do
  let vpc ← pySubscriptStr td ("vpc")
  let subnetsJ ← pySubscriptStr td ("subnets")
  let class_name := computeClassName current_project_name
  let vpcName ← pySubscriptStr vpc ("name")
  let vpcCidr ← pySubscriptStr vpc ("cidr")
  let subnets ← pyIter subnetsJ
  let subnetLines ← exceptMapM descSubnetLine (enumFrom 0 subnets)
  let sgsJ ← pySubscriptStr td ("security_groups")
  let sgs ← pyIter sgsJ
  let sgLines ← exceptMapM descSgLine sgs
  pure (String.mk (trimChars
    ("Generate ONLY valid TypeScript CDK code without any explanations or comments. " ++
     "Export class name must be: " ++ class_name ++
     " VPC: name=\x27" ++ pyStrAtom vpcName ++ "\x27, cidr=\x27" ++ pyStrAtom vpcCidr ++
     "\x27, enableDnsHostnames=true, enableDnsSupport=true " ++
     String.intercalate ("\n") subnetLines ++ " Security Groups: " ++
     String.intercalate ("\n") sgLines ++
     " Return ONLY valid TypeScript CDK v2 code with export class " ++ class_name).data))

/-- The fixed entry-point file content written by `_fix_bin_file`,
parameterized only by the computed class name and the project name. -/
def fix_bin_content (project_name : String) : String :=
  let class_name := computeClassName project_name
  "#!/usr/bin/env node\nimport \x27source-map-support/register\x27;\n" ++
  "import * as cdk from \x27aws-cdk-lib\x27;\n" ++
  "import \x7b " ++ class_name ++ " \x7d from \x27../lib/" ++ project_name ++ "-stack\x27;\n\n" ++
  "const app = new cdk.App();\n" ++
  "new " ++ class_name ++ "(app, \x27" ++ class_name ++ "\x27, \x7b\n" ++
  "  env: \x7b\n    account: process.env.CDK_DEFAULT_ACCOUNT,\n" ++
  "    region: process.env.CDK_DEFAULT_REGION,\n  \x7d,\n\x7d);\n"

/-- The five nodes of the LangGraph workflow built by `_build_workflow`. -/
inductive Node where
  | extract_vpc
  | transform_data
  | generate_cdk
  | deploy_aws
  | handle_error
deriving DecidableEq

/-- Externally observable effects of a run, recorded in order. -/
inductive Event where
  | nodeRun (n : Node)
  | subprocess (cmd : List String) (cwd : String)
  | fileWrite (path content : String)
  | cleanupDone (client : String)
  | cleanupFailed (client : String) (msg : String)
deriving DecidableEq

/-- The workflow state record (`MigrationState` TypedDict). -/
structure MigrationState where
  source_vpc_config : Json
  target_project_name : String
  target_directory : String
  alibaba_vpc_data : Json
  transformed_data : Json
  cdk_code : String
  cdk_project_path : String
  deployment_result : Json
  status : String
  error_message : String

/-- The mutable instance attributes of `MigrationWorkflow` that outlive the
per-run state: whether each client session has been opened, and the
ambient project name used by the description builder. -/
structure WorkflowInstance where
  cdk_generator : Bool
  aliyun_client : Bool
  current_project_name : String
deriving DecidableEq

/-- Result of one `subprocess.run` (exit code, captured stdout/stderr). -/
structure SubprocResult where
  returncode : Int
  stdout : String
  stderr : String
deriving DecidableEq

/-- Behaviour of the provider collaborator during extraction: the raw call
raises, returns JSON-parseable content, or returns opaque text. -/
inductive ProviderOutcome where
  | raises (msg : String)
  | returnsJson (j : Json)
  | returnsText (raw : String)

/-- The behaviour of every external collaborator during one run. -/
structure Env where
  provider : ProviderOutcome
  llmParse : Option Json
  cdkInit : SubprocResult
  npmInstall : SubprocResult
  cdkBootstrap : SubprocResult
  cdkDeploy : SubprocResult
  generatorStream : List (Except String LlmResponse)

/-- `AliyunMCPClient.get_vpc_info`: JSON responses go through the format
converter; a raising provider call is caught and answered with the mock;
opaque text goes to the LLM parser, whose parse result is returned
directly (no conversion) and whose failure or timeout again yields the
mock. -/
def get_vpc_info (env : Env) (vpc_id region : String) : Json :=
  match env.provider with
  | .raises _ => get_mock_vpc_data vpc_id region
  | .returnsJson j => convert_alibaba_vpc_format j vpc_id region
  | .returnsText _ =>
      match env.llmParse with
      | some j => j
      | none => get_mock_vpc_data vpc_id region

/-- `AliyunMCPClient.list_vpcs`: parsed JSON, a `raw_response` wrapper for
opaque text, or an `error` record when the call raises (the method never
propagates the exception). -/
def list_vpcs (env : Env) (_region : String) : Json :=
  match env.provider with
  | .raises msg => .obj [("error", .str msg)]
  | .returnsJson j => j
  | .returnsText t => .obj [("raw_response", .str t)]

/-- Read a string entry of the source config, as
`source_config.get(key, default)`.  The CLI entry point always builds
these entries as strings; a non-string value is read as the default. -/
def cfgGetStr (cfg : Json) (key dflt : String) : String :=
  match jsonLookup cfg key with
  | some (.str s) => s
  | _ => dflt

/-- Body of the `try` block of `extract_alibaba_vpc`: fetch a specific VPC
when an id was requested, otherwise list VPCs and use the first entry,
falling back to the client mock when the listing carries no usable
`vpcs` collection. -/
def extractCore (env : Env) (cfg : Json) : Except String Json :=
  let vpc_id := cfgGetStr cfg ("vpc_id") ("")
  let region := cfgGetStr cfg ("region") ("cn-hangzhou")
  if vpc_id == "" then
    let vpcs_list := list_vpcs env region
    let usable :=
      match vpcs_list with
      | .obj fs => (lookupFields fs ("vpcs")).isSome && (dictGetD fs ("vpcs")).truthy
      | _ => false
    if usable then do
      let v ← pySubscriptStr vpcs_list ("vpcs")
      pyIndex0 v
    else pure (get_mock_vpc_data vpc_id region)
  else pure (get_vpc_info env vpc_id region)

/-- Node 1, `extract_alibaba_vpc`: both the success path and the `except`
branch (which substitutes the hard-coded fallback record) end in
`status = "vpc_extracted"`. -/
def extract_alibaba_vpc (inst : WorkflowInstance) (s : MigrationState) (env : Env) :
    WorkflowInstance × MigrationState × List Event :=
  let inst' := { inst with aliyun_client := true }
  match extractCore env s.source_vpc_config with
  | .ok d =>
      (inst', { s with alibaba_vpc_data := d, status := "vpc_extracted" }, [])
  | .error _ =>
      (inst', { s with alibaba_vpc_data := extract_fallback_vpc_data,
                       status := "vpc_extracted" }, [])

/-- Node 2, `transform_vpc_data`: on success status becomes
`data_transformed`; on exception the stage records the message and sets
`status = "error"`. -/
def transform_vpc_data (s : MigrationState) : MigrationState :=
  match transform_vpc_data_core s.alibaba_vpc_data with
  | .ok t => { s with transformed_data := t, status := "data_transformed" }
  | .error e => { s with error_message := e, status := "error" }

/-- Node 3, `generate_cdk_project`: scaffold with `cdk init` (non-zero exit
raises), create the generator session, build the description, run the
generation, write the extracted code into the stack file and rewrite the
entry-point file. -/
def generate_cdk_project (inst : WorkflowInstance) (s : MigrationState) (env : Env) :
    WorkflowInstance × MigrationState × List Event :=
  let project_name := s.target_project_name
  let inst1 := { inst with current_project_name := project_name }
  let project_path := s.target_directory ++ "/" ++ project_name
  let initEv := Event.subprocess (["cdk", "init", "app", "--language", "typescript"]) project_path
  if env.cdkInit.returncode != 0 then
    (inst1, { s with error_message := "CDK init failed: " ++ env.cdkInit.stderr,
                     status := "error" }, [initEv])
  else
    let inst2 := { inst1 with cdk_generator := true }
    match create_cdk_description project_name s.transformed_data with
    | .error e => (inst2, { s with error_message := e, status := "error" }, [initEv])
    | .ok _description =>
        match generate_cdk_code env.generatorStream with
        | .error e => (inst2, { s with error_message := e, status := "error" }, [initEv])
        | .ok cdk_code =>
            let stack_file := project_path ++ "/lib/" ++ project_name ++ "-stack.ts"
            let clean_code := extract_typescript_code cdk_code
            let bin_file := project_path ++ "/bin/" ++ project_name ++ ".ts"
            (inst2,
             { s with cdk_code := cdk_code,
                      cdk_project_path := project_path,
                      status := "cdk_generated" },
             [initEv, Event.fileWrite stack_file clean_code,
              Event.fileWrite bin_file (fix_bin_content project_name)])

/-- Node 4, `deploy_to_aws`: `npm install` (non-zero exit raises),
`cdk bootstrap` (result discarded, never checked), `cdk deploy` (non-zero
exit raises); on a zero deploy exit the stage records
`deployment_result.status = "deployed"` and completes. -/
def deploy_to_aws (s : MigrationState) (env : Env) : MigrationState × List Event :=
  let project_path := s.cdk_project_path
  let npmEv := Event.subprocess (["npm", "install"]) project_path
  if env.npmInstall.returncode != 0 then
    ({ s with error_message := "npm install failed: " ++ env.npmInstall.stderr,
              status := "error" }, [npmEv])
  else
    let bootEv := Event.subprocess (["cdk", "bootstrap"]) project_path
    let depEv := Event.subprocess (["cdk", "deploy", "--require-approval", "never"]) project_path
    if env.cdkDeploy.returncode != 0 then
      ({ s with error_message := "CDK deploy failed: " ++ env.cdkDeploy.stderr,
                status := "error" }, [npmEv, bootEv, depEv])
    else
      ({ s with deployment_result := .obj
                  [("status", .str ("deployed")),
                   ("output", .str env.cdkDeploy.stdout),
                   ("project_path", .str project_path)],
                status := "completed" }, [npmEv, bootEv, depEv])

/-- `handle_error`: logs the message and returns the state unchanged. -/
def handle_error (s : MigrationState) : MigrationState := s

/-- Dispatch for one node of the compiled graph. -/
def runNode (n : Node) (inst : WorkflowInstance) (s : MigrationState) (env : Env) :
    WorkflowInstance × MigrationState × List Event :=
  match n with
  | .extract_vpc => extract_alibaba_vpc inst s env
  | .transform_data => (inst, transform_vpc_data s, [])
  | .generate_cdk => generate_cdk_project inst s env
  | .deploy_aws =>
      let r := deploy_to_aws s env
      (inst, r.1, r.2)
  | .handle_error => (inst, handle_error s, [])

/-- The edges added by `_build_workflow`.  Every edge is unconditional:
extract to transform to generate to deploy to END, and `handle_error` to
END.  No edge enters `handle_error`. -/
def nextNode : Node → Option Node
  | .extract_vpc => some .transform_data
  | .transform_data => some .generate_cdk
  | .generate_cdk => some .deploy_aws
  | .deploy_aws => none
  | .handle_error => none

/-- Execution of the compiled graph from a node: run the node, record it,
and follow the unconditional edge until END (the fuel bounds the walk;
the graph is acyclic so fuel 8 is never exhausted from the entry point). -/
def runFrom : Nat → Node → WorkflowInstance → MigrationState → Env →
    WorkflowInstance × MigrationState × List Event
  | 0, _, inst, s, _ => (inst, s, [])
  | fuel + 1, n, inst, s, env =>
      let r := runNode n inst s env
      match nextNode n with
      | none => (r.1, r.2.1, Event.nodeRun n :: r.2.2)
      | some m =>
          let r2 := runFrom fuel m r.1 r.2.1 env
          (r2.1, r2.2.1, (Event.nodeRun n :: r.2.2) ++ r2.2.2)

/-- The fresh instance constructed by `MigrationWorkflow.__init__`. -/
def initialInstance : WorkflowInstance :=
  { cdk_generator := false, aliyun_client := false, current_project_name := "" }

/-- The initial state built by `run_migration`. -/
def initialState (cfg : Json) (project dir : String) : MigrationState :=
  { source_vpc_config := cfg,
    target_project_name := project,
    target_directory := dir,
    alibaba_vpc_data := .obj [],
    transformed_data := .obj [],
    cdk_code := "",
    cdk_project_path := "",
    deployment_result := .obj [],
    status := "started",
    error_message := "" }

/-- `self.workflow.ainvoke(initial_state)`: run the compiled graph from the
entry point `extract_vpc`. -/
def workflow_ainvoke (env : Env) (cfg : Json) (project dir : String) :
    WorkflowInstance × MigrationState × List Event :=
  runFrom 8 .extract_vpc initialInstance (initialState cfg project dir) env

/-- One client's `cleanup()` method (`AliyunMCPClient.cleanup` /
`CDKCodeGenerator.cleanup`): `aclose` is attempted; a failure is caught
and logged inside the method, which therefore never raises. -/
def cleanupClient (client : String) (failure : Option String) : List Event :=
  match failure with
  | none => [Event.cleanupDone client]
  | some m => [Event.cleanupFailed client m]

/-- The cleanup sequence of `run_migration`: each client is cleaned exactly
when it was opened, generator first, provider client second. -/
def cleanupAll (inst : WorkflowInstance) (cdkFail aliFail : Option String) : List Event :=
  (if inst.cdk_generator then cleanupClient ("cdk_generator") cdkFail else []) ++
  (if inst.aliyun_client then cleanupClient ("aliyun_client") aliFail else [])

/-- The terminal section of `MigrationWorkflow.run_migration`, abstracted
over the outcome of `ainvoke` (`Except.error` is the path where the
workflow invocation itself raised): both the return path and the
re-raise path run the same cleanup sequence first, and cleanup outcomes
(`cdkFail`/`aliFail`) never change the returned value. -/
def run_migration_core (inst : WorkflowInstance) (outcome : Except String MigrationState)
    (cdkFail aliFail : Option String) : Except String MigrationState × List Event :=
  match outcome with
  | .ok fs => (.ok fs, cleanupAll inst cdkFail aliFail)
  | .error e => (.error e, cleanupAll inst cdkFail aliFail)

/-- `MigrationWorkflow.run_migration` for a run whose graph invocation
returns normally: build the initial state, invoke the workflow, then
clean up every opened session before returning the final state. -/
def run_migration (env : Env) (cfg : Json) (project dir : String)
    (cdkFail aliFail : Option String) : Except String MigrationState × List Event :=
  let r := workflow_ainvoke env cfg project dir
  let c := run_migration_core r.1 (.ok r.2.1) cdkFail aliFail
  (c.1, r.2.2 ++ c.2)

/-! ## Supporting lemmas -/

theorem exceptBind_ok {α β : Type} (a : α) (f : α → Except String β) :
    (Except.ok a >>= f) = f a := rfl

theorem exceptBind_err {α β : Type} (e : String) (f : α → Except String β) :
    ((Except.error e : Except String α) >>= f) = Except.error e := rfl

/-- Bridge from stated lookups to the embedded subscription operator. -/
theorem pySubscriptStr_of_lookup {j : Json} {k : String} {v : Json}
    (h : jsonLookup j k = some v) : pySubscriptStr j k = .ok v := by
  cases j <;> simp_all [jsonLookup, pySubscriptStr]

/-- A successful `exceptMapM` has a result of the same length. -/
theorem exceptMapM_ok_length {α β : Type} {f : α → Except String β}
    {xs : List α} {ys : List β} (h : exceptMapM f xs = .ok ys) :
    ys.length = xs.length := by
  induction xs generalizing ys with
  | nil =>
      rw [exceptMapM] at h
      injection h with h
      rw [← h]
      rfl
  | cons x xs ih =>
      rw [exceptMapM] at h
      cases hx : f x with
      | error e => rw [hx, exceptBind_err] at h; exact absurd h (by simp)
      | ok y =>
          rw [hx, exceptBind_ok] at h
          cases hxs : exceptMapM f xs with
          | error e => rw [hxs, exceptBind_err] at h; exact absurd h (by simp)
          | ok ys2 =>
              rw [hxs, exceptBind_ok] at h
              injection h with h
              rw [← h]
              simp [ih hxs]

/-- A successful `exceptMapM` is pointwise successful. -/
theorem exceptMapM_ok_get {α β : Type} {f : α → Except String β}
    {xs : List α} {ys : List β} (h : exceptMapM f xs = .ok ys) :
    ∀ (i : Nat) (hi : i < xs.length) (hj : i < ys.length),
      f (xs.get ⟨i, hi⟩) = .ok (ys.get ⟨i, hj⟩) := by
  induction xs generalizing ys with
  | nil => intro i hi hj; exact absurd hi (by simp)
  | cons x xs ih =>
      rw [exceptMapM] at h
      cases hx : f x with
      | error e => rw [hx, exceptBind_err] at h; exact absurd h (by simp)
      | ok y =>
          rw [hx, exceptBind_ok] at h
          cases hxs : exceptMapM f xs with
          | error e => rw [hxs, exceptBind_err] at h; exact absurd h (by simp)
          | ok ys2 =>
              rw [hxs, exceptBind_ok] at h
              injection h with h
              subst h
              intro i hi hj
              cases i with
              | zero => simpa using hx
              | succ n => exact ih hxs n (by simpa using hi) (by simpa using hj)

/-- A purely textual content list accumulates all its texts and requests no
tool call. -/
theorem scanContent_texts (pre : List String) :
    scanContent (pre.map ContentItem.text) = (pre, false) := by
  induction pre with
  | nil => rfl
  | cons s rest ih => simp [scanContent, ih]

/-- Texts before the first tool-use item are accumulated; the tool-use item
breaks the scan (later items of the same response are not processed). -/
theorem scanContent_texts_then_tool (pre : List String) (nm id : String)
    (input : Json) (rest : List ContentItem) :
    scanContent (pre.map ContentItem.text ++ ContentItem.toolUse nm id input :: rest) =
      (pre, true) := by
  induction pre with
  | nil => rfl
  | cons s p ih => simp [scanContent, ih]

/-- When every earlier response requests a tool call and the next invocation
raises, the conversation loop stops with that error: no retry, and the
stream beyond the failure is never consumed. -/
theorem generationLoop_stops_error (pre : List LlmResponse) :
    ∀ (items : LlmResponse) (acc : List String) (e : String)
      (tail : List (Except String LlmResponse)),
    (scanContent items).2 = true →
    (∀ r ∈ pre, (scanContent r).2 = true) →
    generationLoop items (pre.map Except.ok ++ Except.error e :: tail) acc =
      .error e := by
  induction pre with
  | nil =>
      intro items acc e tail h1 _
      rw [generationLoop.eq_def]
      simp [h1]
  | cons r pre ih =>
      intro items acc e tail h1 hall
      rw [generationLoop.eq_def]
      simp only [h1, List.map_cons, List.cons_append, if_true]
      exact ih r (acc ++ (scanContent items).1) e tail (hall r (by simp))
        (fun x hx => hall x (by simp [hx]))

/-- `needle` occurs in `hay` at position `k` and at no earlier position. -/
def occursFirstAt (needle hay : List Char) (k : Nat) : Prop :=
  needle.isPrefixOf (hay.drop k) = true ∧
  ∀ j < k, needle.isPrefixOf (hay.drop j) = false

instance (needle hay : List Char) (k : Nat) : Decidable (occursFirstAt needle hay k) := by
  unfold occursFirstAt
  infer_instance

/-- The first-occurrence split finds exactly the first occurrence. -/
theorem splitOnSubAux_of_first {needle hay : List Char} {k : Nat}
    (h : occursFirstAt needle hay k) :
    splitOnSubAux needle hay = some (hay.take k, hay.drop (k + needle.length)) := by
  induction hay generalizing k with
  | nil =>
      obtain ⟨h1, _⟩ := h
      have hne : needle = [] := by
        cases needle with
        | nil => rfl
        | cons c cs => simp [List.isPrefixOf] at h1
      subst hne
      simp [splitOnSubAux]
  | cons c rest ih =>
      obtain ⟨h1, h2⟩ := h
      cases k with
      | zero =>
          rw [splitOnSubAux]
          rw [List.drop_zero] at h1
          simp [h1]
      | succ k2 =>
          have h0 : needle.isPrefixOf (c :: rest) = false := by
            have := h2 0 (Nat.succ_pos k2)
            simpa using this
          rw [splitOnSubAux]
          rw [h0]
          have ihx := ih (k := k2)
            ⟨by simpa using h1,
             fun j hj => by
               have := h2 (j + 1) (Nat.succ_lt_succ hj)
               simpa using this⟩
          rw [ihx]
          have harith : k2 + 1 + needle.length = (k2 + needle.length) + 1 := by omega
          rw [harith]
          rfl

/-- When no line ever triggers the code-token scan, nothing is collected. -/
theorem heuristicScan_none {lines : List (List Char)}
    (h : ∀ l ∈ lines, startsCodeToken (trimChars l) = false) :
    heuristicScan false lines = [] := by
  induction lines with
  | nil => rfl
  | cons l ls ih =>
      rw [heuristicScan]
      have h0 := h l (by simp)
      simp only [h0, Bool.or_false]
      simp only [Bool.false_eq_true, if_false]
      exact ih (fun x hx => h x (by simp [hx]))

/-- A response with no fenced block and no code-introducing line extracts to
the empty string. -/
theorem extract_empty_of_no_code (r : String)
    (h1 : containsSubB tsFenceOpen r.data = false)
    (h2 : ∀ l ∈ splitOnChar ('\n') r.data, startsCodeToken (trimChars l) = false) :
    extract_typescript_code r = "" := by
  rw [extract_typescript_code]
  have hnone : splitOnSubAux tsFenceOpen r.data = none := by
    cases hs : splitOnSubAux tsFenceOpen r.data with
    | none => rfl
    | some p => rw [containsSubB, hs] at h1; simp at h1
  rw [hnone]
  rw [heuristicExtract, heuristicScan_none h2]
  rfl

/-! ## Claim theorems -/

/-- C4 counterexample: an LLM invocation that raises (here the very first
one) does not propagate to the caller of `generate_cdk_code` as an
exception; the blanket `except` returns the string `"Error: ..."` as an
ordinary value (`Except.ok`), where a propagated exception would be an
`Except.error` outcome. -/
theorem c4_counterexample :
    generate_cdk_code ([Except.error ("boom")]) = Except.ok ("Error: boom") := rfl

/-- C4 (amended): when an LLM invocation fails inside the generation loop
(after any number of successful tool-call round-trips), `generate_cdk_code`
returns normally with the string `"Error: <message>"` instead of raising,
and it performs no retry: the stream of potential backend responses beyond
the failed invocation is never consumed, so the result does not depend on
it. -/
theorem c4_invocation_failure_swallowed_no_retry
    (pre : List LlmResponse) (e : String)
    (tail tail2 : List (Except String LlmResponse))
    (h : ∀ r ∈ pre, (scanContent r).2 = true) :
    generate_cdk_code (pre.map Except.ok ++ Except.error e :: tail) =
      Except.ok ("Error: " ++ e) ∧
    generate_cdk_code (pre.map Except.ok ++ Except.error e :: tail) =
      generate_cdk_code (pre.map Except.ok ++ Except.error e :: tail2) := by
  have key : ∀ (t : List (Except String LlmResponse)),
      generate_cdk_code (pre.map Except.ok ++ Except.error e :: t) =
        Except.ok ("Error: " ++ e) := by
    intro t
    cases pre with
    | nil => rfl
    | cons r pre2 =>
        have hr := h r (by simp)
        have hrest : ∀ x ∈ pre2, (scanContent x).2 = true :=
          fun x hx => h x (by simp [hx])
        simp only [generate_cdk_code, List.map_cons, List.cons_append]
        rw [generationLoop_stops_error pre2 r [] e t hr hrest]
  exact ⟨key tail, (key tail).trans (key tail2).symm⟩

/-- C4 witness: one successful tool-call round-trip, then a failing
invocation; the result is the error string, independently of anything the
backend might have answered later. -/
theorem c4_witness :
    generate_cdk_code
      ([Except.ok [ContentItem.toolUse ("CDKGeneralGuidance") ("t1") (.obj [])],
        Except.error ("invoke failed")]) = Except.ok ("Error: invoke failed") ∧
    generate_cdk_code
      ([Except.ok [ContentItem.toolUse ("CDKGeneralGuidance") ("t1") (.obj [])],
        Except.error ("invoke failed")]) =
    generate_cdk_code
      ([Except.ok [ContentItem.toolUse ("CDKGeneralGuidance") ("t1") (.obj [])],
        Except.error ("invoke failed"), Except.ok [ContentItem.text ("late answer")]]) :=
  c4_invocation_failure_swallowed_no_retry
    ([[ContentItem.toolUse ("CDKGeneralGuidance") ("t1") (.obj [])]])
    ("invoke failed") ([]) ([Except.ok [ContentItem.text ("late answer")]])
    (by decide)

/-- Environment of the C2 counterexample: dependency install exits 1 while
the deploy command itself would exit 0. -/
def c2Env : Env :=
  { provider := .raises ("unused"),
    llmParse := none,
    cdkInit := { returncode := 0, stdout := "", stderr := "" },
    npmInstall := { returncode := 1, stdout := "", stderr := "npm broke" },
    cdkBootstrap := { returncode := 0, stdout := "", stderr := "" },
    cdkDeploy := { returncode := 0, stdout := "ok", stderr := "" },
    generatorStream := [] }

/-- State of the C2 counterexample: a generated project awaiting deploy. -/
def c2State : MigrationState :=
  { initialState (.obj []) ("demo") ("./out") with
      cdk_project_path := "proj", status := "cdk_generated" }

/-- C2 counterexample: a run in which the deploy command's exit status is
zero still moves the workflow to the error state, because the dependency
install step's non-zero exit is also fatal (and the deploy subprocess then
never runs) — refuting "only the deploy step's non-zero exit status is
fatal". -/
theorem c2_counterexample :
    c2Env.cdkDeploy.returncode = 0 ∧
    (deploy_to_aws c2State c2Env).1.status = "error" ∧
    (deploy_to_aws c2State c2Env).2 =
      [Event.subprocess (["npm", "install"]) ("proj")] :=
  ⟨rfl, rfl, rfl⟩

/-- C2 (amended): among the three subprocess steps of the deploy stage, the
non-zero exits of both the dependency install and the deploy command are
fatal (install failure also prevents the deploy subprocess from running at
all); only the bootstrap step is best-effort, its result discarded and
never influencing the resulting state; and when install and deploy both
exit zero the stage sets `deployment_result.status = "deployed"` and
`status = "completed"`. -/
theorem c2_deploy_stage_fatality (s : MigrationState) (env : Env) :
    (env.npmInstall.returncode ≠ 0 →
      (deploy_to_aws s env).1.status = "error" ∧
      (deploy_to_aws s env).2 =
        [Event.subprocess (["npm", "install"]) s.cdk_project_path]) ∧
    (env.npmInstall.returncode = 0 → env.cdkDeploy.returncode = 0 →
      (deploy_to_aws s env).1.status = "completed" ∧
      jsonLookup (deploy_to_aws s env).1.deployment_result ("status") =
        some (.str ("deployed"))) ∧
    (env.npmInstall.returncode = 0 → env.cdkDeploy.returncode ≠ 0 →
      (deploy_to_aws s env).1.status = "error") ∧
    (∀ b : SubprocResult,
      (deploy_to_aws s { env with cdkBootstrap := b }).1 = (deploy_to_aws s env).1) := by
  refine ⟨?_, ?_, ?_, ?_⟩
  · intro h
    have hb : (env.npmInstall.returncode != 0) = true := by simp [bne_iff_ne, h]
    constructor
    · simp [deploy_to_aws, hb]
    · simp [deploy_to_aws, hb]
  · intro h1 h2
    have hb1 : (env.npmInstall.returncode != 0) = false := by simp [h1]
    have hb2 : (env.cdkDeploy.returncode != 0) = false := by simp [h2]
    constructor
    · simp [deploy_to_aws, hb1, hb2]
    · simp [deploy_to_aws, hb1, hb2, jsonLookup, lookupFields]
  · intro h1 h2
    have hb1 : (env.npmInstall.returncode != 0) = false := by simp [h1]
    have hb2 : (env.cdkDeploy.returncode != 0) = true := by simp [bne_iff_ne, h2]
    simp [deploy_to_aws, hb1, hb2]
  · intro b
    rfl

/-- C2 witness: with install and deploy exiting zero, the stage completes
with a deployed result (bootstrap result irrelevant). -/
theorem c2_witness :
    (deploy_to_aws c2State { c2Env with npmInstall := { returncode := 0, stdout := "", stderr := "" } }).1.status = "completed" ∧
    jsonLookup (deploy_to_aws c2State { c2Env with npmInstall := { returncode := 0, stdout := "", stderr := "" } }).1.deployment_result ("status") =
      some (.str ("deployed")) :=
  (c2_deploy_stage_fatality c2State
    { c2Env with npmInstall := { returncode := 0, stdout := "", stderr := "" } }).2.1 rfl rfl

/-- C3: when the provider collaborator raises during extraction, the extract
stage still completes with `status = "vpc_extracted"`, and the substituted
synthetic VPC carries the requested resource id as its `vpc_id` (or the
fixed `vpc-mock-123456` when no id was requested): with an id the client's
`get_vpc_info` catches the raise and returns `_get_mock_vpc_data(id)`;
without one, `list_vpcs` catches it and returns an `error` record, which the
stage replaces by `_get_mock_vpc_data("")`. -/
theorem c3_extract_degraded_to_mock (env : Env) (m id region p dir : String)
    (inst : WorkflowInstance) (h : env.provider = .raises m) :
    (extract_alibaba_vpc inst
        (initialState (.obj [("vpc_id", .str id), ("region", .str region)]) p dir)
        env).2.1.status = "vpc_extracted" ∧
    jsonLookup (extract_alibaba_vpc inst
        (initialState (.obj [("vpc_id", .str id), ("region", .str region)]) p dir)
        env).2.1.alibaba_vpc_data ("vpc_id") =
      some (.str (if id == "" then "vpc-mock-123456" else id)) := by
  have hcore : extractCore env
      (.obj [("vpc_id", .str id), ("region", .str region)]) =
      .ok (get_mock_vpc_data id region) := by
    cases hid : id == "" with
    | true =>
        simp [extractCore, cfgGetStr, jsonLookup, lookupFields, hid,
              list_vpcs, h, dictGetD]
        rfl
    | false =>
        simp [extractCore, cfgGetStr, jsonLookup, lookupFields, hid,
              get_vpc_info, h]
        rfl
  constructor
  · simp [extract_alibaba_vpc, initialState, hcore]
  · simp [extract_alibaba_vpc, initialState, hcore, get_mock_vpc_data,
          jsonLookup, lookupFields]

/-- C3 witness: a raising provider with a requested id, and without one. -/
theorem c3_witness :
    (extract_alibaba_vpc initialInstance
        (initialState (.obj [("vpc_id", .str ("vpc-42")), ("region", .str ("cn-hangzhou"))]) ("p") ("d"))
        { provider := .raises ("connection refused"), llmParse := none,
          cdkInit := { returncode := 0, stdout := "", stderr := "" },
          npmInstall := { returncode := 0, stdout := "", stderr := "" },
          cdkBootstrap := { returncode := 0, stdout := "", stderr := "" },
          cdkDeploy := { returncode := 0, stdout := "", stderr := "" },
          generatorStream := [] }).2.1.status = "vpc_extracted" ∧
    jsonLookup (extract_alibaba_vpc initialInstance
        (initialState (.obj [("vpc_id", .str ("vpc-42")), ("region", .str ("cn-hangzhou"))]) ("p") ("d"))
        { provider := .raises ("connection refused"), llmParse := none,
          cdkInit := { returncode := 0, stdout := "", stderr := "" },
          npmInstall := { returncode := 0, stdout := "", stderr := "" },
          cdkBootstrap := { returncode := 0, stdout := "", stderr := "" },
          cdkDeploy := { returncode := 0, stdout := "", stderr := "" },
          generatorStream := [] }).2.1.alibaba_vpc_data ("vpc_id") =
      some (.str ("vpc-42")) :=
  c3_extract_degraded_to_mock _ ("connection refused") ("vpc-42") ("cn-hangzhou")
    ("p") ("d") initialInstance rfl

/-- C9: when extraction yields empty text — the generator response has no
```typescript fenced block and no line starting with a code-introducing
token — the generate stage does not fail: the empty extracted code is
written as-is to the stack definition file and the stage still completes
with `status = "cdk_generated"`. -/
theorem c9_empty_extraction_nonfatal (env : Env) (inst : WorkflowInstance)
    (s : MigrationState) (r dsc : String)
    (h0 : env.cdkInit.returncode = 0)
    (h1 : create_cdk_description s.target_project_name s.transformed_data = .ok dsc)
    (h2 : generate_cdk_code env.generatorStream = .ok r)
    (h3 : containsSubB tsFenceOpen r.data = false)
    (h4 : ∀ l ∈ splitOnChar ('\n') r.data, startsCodeToken (trimChars l) = false) :
    extract_typescript_code r = "" ∧
    (generate_cdk_project inst s env).2.1.status = "cdk_generated" ∧
    Event.fileWrite
        (s.target_directory ++ "/" ++ s.target_project_name ++ "/lib/" ++
         s.target_project_name ++ "-stack.ts") ("")
      ∈ (generate_cdk_project inst s env).2.2 := by
  have he := extract_empty_of_no_code r h3 h4
  have hb : (env.cdkInit.returncode != 0) = false := by simp [h0]
  refine ⟨he, ?_, ?_⟩
  · simp [generate_cdk_project, hb, h1, h2]
  · simp [generate_cdk_project, hb, h1, h2, he]

/-- Transformed data of the C9 witness (a well-formed but trivial target
descriptor so that the description builder succeeds). -/
def c9Transformed : Json :=
  .obj [("vpc", .obj [("name", .str ("v")), ("cidr", .str ("10.0.0.0/16"))]),
        ("subnets", .arr []),
        ("security_groups", .arr [])]

/-- The description the builder produces for the C9 witness state. -/
def c9Desc : String :=
  match create_cdk_description ("demo") c9Transformed with
  | .ok d => d
  | .error _ => ""

/-- C9 witness: a refusal answer with no fenced block and no code line; the
stage still reports `cdk_generated` and writes the empty string. -/
theorem c9_witness :
    extract_typescript_code ("I cannot generate that.") = "" ∧
    (generate_cdk_project initialInstance
        { initialState (.obj []) ("demo") ("./out") with transformed_data := c9Transformed }
        { provider := .raises ("unused"), llmParse := none,
          cdkInit := { returncode := 0, stdout := "", stderr := "" },
          npmInstall := { returncode := 0, stdout := "", stderr := "" },
          cdkBootstrap := { returncode := 0, stdout := "", stderr := "" },
          cdkDeploy := { returncode := 0, stdout := "", stderr := "" },
          generatorStream := [.ok [.text ("I cannot generate that.")]] }).2.1.status =
      "cdk_generated" ∧
    Event.fileWrite ("./out/demo/lib/demo-stack.ts") ("")
      ∈ (generate_cdk_project initialInstance
        { initialState (.obj []) ("demo") ("./out") with transformed_data := c9Transformed }
        { provider := .raises ("unused"), llmParse := none,
          cdkInit := { returncode := 0, stdout := "", stderr := "" },
          npmInstall := { returncode := 0, stdout := "", stderr := "" },
          cdkBootstrap := { returncode := 0, stdout := "", stderr := "" },
          cdkDeploy := { returncode := 0, stdout := "", stderr := "" },
          generatorStream := [.ok [.text ("I cannot generate that.")]] }).2.2 :=
  c9_empty_extraction_nonfatal _ initialInstance _ ("I cannot generate that.") c9Desc
    rfl (by rfl) (by rfl) (by decide) (by decide)

/-- Some cleanup event (successful or failed-and-logged) for the given
client occurs in the trace. -/
def cleanupAttempted (client : String) (tr : List Event) : Bool :=
  tr.any (fun e => match e with
    | .cleanupDone c => c == client
    | .cleanupFailed c _ => c == client
    | _ => false)

/-- Once the provider session is open, no later node closes it. -/
theorem runFrom_preserves_aliyun (fuel : Nat) :
    ∀ (n : Node) (inst : WorkflowInstance) (s : MigrationState) (env : Env),
    inst.aliyun_client = true →
    (runFrom fuel n inst s env).1.aliyun_client = true := by
  induction fuel with
  | zero => intro n inst s env h; simpa [runFrom] using h
  | succ fuel ih =>
      intro n inst s env h
      have hnode : (runNode n inst s env).1.aliyun_client = true := by
        cases n with
        | extract_vpc =>
            rw [runNode, extract_alibaba_vpc]
            cases hc : extractCore env s.source_vpc_config with
            | ok d => simp
            | error e => simp
        | transform_data => simpa [runNode] using h
        | generate_cdk =>
            rw [runNode, generate_cdk_project]
            split
            · simpa using h
            · split
              · simpa using h
              · split
                · simpa using h
                · simpa using h
        | deploy_aws => simpa [runNode] using h
        | handle_error => simpa [runNode] using h
      rw [runFrom]
      cases hn : nextNode n with
      | none => simpa [hn] using hnode
      | some m =>
          simp only [hn]
          exact ih m _ _ env hnode

/-- Every graph invocation opens the provider session in its first node and
keeps it open to the end. -/
theorem workflow_opens_aliyun (env : Env) (cfg : Json) (p d : String) :
    (workflow_ainvoke env cfg p d).1.aliyun_client = true := by
  rw [workflow_ainvoke, runFrom]
  have h1 : (runNode .extract_vpc initialInstance (initialState cfg p d) env).1.aliyun_client = true := by
    rw [runNode, extract_alibaba_vpc]
    cases hc : extractCore env (initialState cfg p d).source_vpc_config with
    | ok dd => simp
    | error e => simp
  simp only [nextNode]
  exact runFrom_preserves_aliyun 7 _ _ _ env h1

/-- C7: on every terminal path of `run_migration` — normal return or
re-raise — the engine first runs the cleanup of each opened session; a
failure inside a session's cleanup is absorbed inside the `cleanup` method
(recorded, never re-raised) and cannot change the returned value or mask
the run's outcome; and a full workflow invocation always has its provider
session cleaned up. -/
theorem c7_cleanup_guaranteed (inst : WorkflowInstance)
    (outcome : Except String MigrationState) (cdkFail aliFail : Option String) :
    (run_migration_core inst outcome cdkFail aliFail).1 = outcome ∧
    (inst.cdk_generator = true →
      cleanupAttempted ("cdk_generator")
        (run_migration_core inst outcome cdkFail aliFail).2 = true) ∧
    (inst.aliyun_client = true →
      cleanupAttempted ("aliyun_client")
        (run_migration_core inst outcome cdkFail aliFail).2 = true) ∧
    (∀ f g : Option String,
      (run_migration_core inst outcome f g).1 =
        (run_migration_core inst outcome cdkFail aliFail).1) ∧
    (∀ (env : Env) (cfg : Json) (p dir : String),
      cleanupAttempted ("aliyun_client")
        (run_migration env cfg p dir cdkFail aliFail).2 = true) := by
  have hcore : ∀ (i : WorkflowInstance),
      i.aliyun_client = true →
      cleanupAttempted ("aliyun_client") (cleanupAll i cdkFail aliFail) = true := by
    intro i hi
    cases aliFail with
    | none => simp [cleanupAll, cleanupClient, cleanupAttempted, hi]
    | some msg => simp [cleanupAll, cleanupClient, cleanupAttempted, hi]
  refine ⟨?_, ?_, ?_, ?_, ?_⟩
  · cases outcome <;> rfl
  · intro hg
    cases outcome with
    | ok fs =>
        cases cdkFail with
        | none => simp [run_migration_core, cleanupAll, cleanupClient, cleanupAttempted, hg]
        | some msg => simp [run_migration_core, cleanupAll, cleanupClient, cleanupAttempted, hg]
    | error e =>
        cases cdkFail with
        | none => simp [run_migration_core, cleanupAll, cleanupClient, cleanupAttempted, hg]
        | some msg => simp [run_migration_core, cleanupAll, cleanupClient, cleanupAttempted, hg]
  · intro ha
    cases outcome with
    | ok fs => simpa [run_migration_core] using hcore inst ha
    | error e => simpa [run_migration_core] using hcore inst ha
  · intro f g; cases outcome <;> rfl
  · intro env cfg p dir
    have ha := workflow_opens_aliyun env cfg p dir
    have h2 := hcore (workflow_ainvoke env cfg p dir).1 ha
    simp [run_migration, run_migration_core, cleanupAttempted, List.any_append]
    simp [cleanupAttempted] at h2
    exact Or.inr h2

/-- C7 witness: both sessions open, the workflow having raised, the
generator cleanup itself failing: the returned value is still the original
error and both cleanups were attempted. -/
theorem c7_witness :
    (run_migration_core
        { cdk_generator := true, aliyun_client := true, current_project_name := "p" }
        (Except.error ("boom")) (some ("cleanup exploded")) none).1 =
      Except.error ("boom") ∧
    cleanupAttempted ("cdk_generator")
      (run_migration_core
        { cdk_generator := true, aliyun_client := true, current_project_name := "p" }
        (Except.error ("boom")) (some ("cleanup exploded")) none).2 = true ∧
    cleanupAttempted ("aliyun_client")
      (run_migration_core
        { cdk_generator := true, aliyun_client := true, current_project_name := "p" }
        (Except.error ("boom")) (some ("cleanup exploded")) none).2 = true :=
  ⟨(c7_cleanup_guaranteed _ _ _ _).1,
   (c7_cleanup_guaranteed _ _ _ _).2.1 rfl,
   (c7_cleanup_guaranteed _ _ _ _).2.2.1 rfl⟩

/-- C8: (a) a tool-augmented conversation with exactly one tool-call
round-trip — the first response requests one tool call, the second contains
no tool-invocation request — terminates and returns the newline-joined
accumulated text turns (texts before the tool call, then the second
response's texts); (b) for every raw result containing a ```typescript
fenced code block, extraction returns exactly the trimmed contents of the
first such block (the segment between the first opening marker and the
first fence after it). -/
theorem c8_generation_loop_and_extraction :
    (∀ (pre r2 : List String) (nm tid : String) (input : Json)
       (rest : List ContentItem),
      generate_cdk_code
        (Except.ok (pre.map ContentItem.text ++ ContentItem.toolUse nm tid input :: rest) ::
          [Except.ok (r2.map ContentItem.text)]) =
        .ok (String.intercalate ("\n") (pre ++ r2))) ∧
    (∀ (s : String) (k m2 : Nat),
      occursFirstAt tsFenceOpen s.data k →
      occursFirstAt fenceMarker (s.data.drop (k + tsFenceOpen.length)) m2 →
      extract_typescript_code s =
        String.mk (trimChars ((s.data.drop (k + tsFenceOpen.length)).take m2))) := by
  constructor
  · intro pre r2 nm tid input rest
    simp only [generate_cdk_code]
    rw [generationLoop.eq_def]
    simp only [scanContent_texts_then_tool]
    rw [generationLoop.eq_def]
    simp only [scanContent_texts]
    simp
  · intro s k m2 h1 h2
    have e1 := splitOnSubAux_of_first h1
    have e2 := splitOnSubAux_of_first h2
    rw [extract_typescript_code, e1]
    dsimp only
    rw [e2]

/-- C8 witness: a concrete one-round-trip conversation, and a concrete
response with a fenced block whose trimmed body is extracted exactly. -/
theorem c8_witness :
    generate_cdk_code
      (Except.ok [ContentItem.text ("Let me check."),
                  ContentItem.toolUse ("SearchGenAICDKConstructs") ("t1") (.obj []),
                  ContentItem.text ("unprocessed")] ::
        [Except.ok [ContentItem.text ("```typescript\nconst a = 1;\n```")]]) =
      Except.ok ("Let me check.\n```typescript\nconst a = 1;\n```") ∧
    extract_typescript_code ("Here:\n```typescript\nconst x = 1;\n``` done") =
      "const x = 1;" :=
  ⟨c8_generation_loop_and_extraction.1 (["Let me check."])
      (["```typescript\nconst a = 1;\n```"]) ("SearchGenAICDKConstructs") ("t1")
      (.obj []) ([ContentItem.text ("unprocessed")]),
   c8_generation_loop_and_extraction.2 ("Here:\n```typescript\nconst x = 1;\n``` done")
      6 14 (by decide) (by decide)⟩

/-- Input of the C5 counterexample: one vswitch whose name contains dashes. -/
def c5Input : Json :=
  .obj [("vpc_name", .str ("demo-vpc")),
        ("cidr_block", .str ("10.0.0.0/16")),
        ("vswitches", .arr [.obj [("name", .str ("demo-subnet-1")),
                                  ("cidr_block", .str ("10.0.1.0/24")),
                                  ("availability_zone", .str ("cn-hangzhou-a"))]]),
        ("security_groups", .arr [])]

/-- The name of the first output subnet the transformer produces for
`c5Input`. -/
def c5OutputSubnetName : String :=
  match transform_vpc_data_core c5Input with
  | .ok out =>
      match jsonLookup out ("subnets") with
      | some (.arr (sub :: _)) =>
          match jsonLookup sub ("name") with
          | some (.str s) => s
          | _ => ""
      | _ => ""
  | .error _ => ""

/-- C5 counterexample: the subnet name does not pass through unchanged —
the source entry named `demo-subnet-1` comes out as `demo_subnet_1`
(dashes replaced by underscores). -/
theorem c5_counterexample :
    c5OutputSubnetName = "demo_subnet_1" ∧
    (c5OutputSubnetName == "demo-subnet-1") = false := ⟨rfl, rfl⟩

/-- C5 (amended): for every subnet (vswitch) entry of the transformer's
input, the output subnet's `cidr` passes through unchanged, its `name`
passes through with every `-` replaced by `_`, and the
"map public IP on launch" flag is always set true. -/
theorem c5_subnet_mapping (ad out : Json) (vs : List Json) (i : Nat)
    (hi : i < vs.length) (nm : String) (c az : Json)
    (hok : transform_vpc_data_core ad = .ok out)
    (hvs : jsonLookup ad ("vswitches") = some (.arr vs))
    (hnm : jsonLookup (vs.get ⟨i, hi⟩) ("name") = some (.str nm))
    (hc : jsonLookup (vs.get ⟨i, hi⟩) ("cidr_block") = some c)
    (haz : jsonLookup (vs.get ⟨i, hi⟩) ("availability_zone") = some az) :
    ∃ subs : List Json,
      jsonLookup out ("subnets") = some (.arr subs) ∧
      ∃ hj : i < subs.length,
        jsonLookup (subs.get ⟨i, hj⟩) ("name") =
          some (.str (pyReplaceChar ('-') ('_') nm)) ∧
        jsonLookup (subs.get ⟨i, hj⟩) ("cidr") = some c ∧
        jsonLookup (subs.get ⟨i, hj⟩) ("map_public_ip_on_launch") =
          some (.bool true) := by
  rw [transform_vpc_data_core] at hok
  cases h1 : pySubscriptStr ad ("vpc_name") with
  | error e => rw [h1, exceptBind_err] at hok; exact absurd hok (by simp)
  | ok vpcName =>
  rw [h1, exceptBind_ok] at hok
  cases h2 : pyStrReplaceDash vpcName with
  | error e => rw [h2, exceptBind_err] at hok; exact absurd hok (by simp)
  | ok vpcName2 =>
  rw [h2, exceptBind_ok] at hok
  cases h3 : pySubscriptStr ad ("cidr_block") with
  | error e => rw [h3, exceptBind_err] at hok; exact absurd hok (by simp)
  | ok cidr =>
  rw [h3, exceptBind_ok] at hok
  rw [pySubscriptStr_of_lookup hvs, exceptBind_ok] at hok
  rw [show pyIter (.arr vs) = .ok vs from rfl, exceptBind_ok] at hok
  cases h6 : exceptMapM transform_vswitch vs with
  | error e => rw [h6, exceptBind_err] at hok; exact absurd hok (by simp)
  | ok subs =>
  rw [h6, exceptBind_ok] at hok
  cases h7 : pySubscriptStr ad ("security_groups") with
  | error e => rw [h7, exceptBind_err] at hok; exact absurd hok (by simp)
  | ok sgJ =>
  rw [h7, exceptBind_ok] at hok
  cases h8 : pyIter sgJ with
  | error e => rw [h8, exceptBind_err] at hok; exact absurd hok (by simp)
  | ok sgs =>
  rw [h8, exceptBind_ok] at hok
  cases h9 : exceptMapM transform_security_group sgs with
  | error e => rw [h9, exceptBind_err] at hok; exact absurd hok (by simp)
  | ok sgs2 =>
  rw [h9, exceptBind_ok] at hok
  injection hok with hout
  refine ⟨subs, ?_, ?_⟩
  · rw [← hout]; rfl
  · have hj : i < subs.length := by rw [exceptMapM_ok_length h6]; exact hi
    have hpt := exceptMapM_ok_get h6 i hi hj
    rw [transform_vswitch] at hpt
    rw [pySubscriptStr_of_lookup hnm, exceptBind_ok] at hpt
    rw [show pyStrReplaceDash (.str nm) = .ok (pyReplaceChar ('-') ('_') nm) from rfl,
        exceptBind_ok] at hpt
    rw [pySubscriptStr_of_lookup hc, exceptBind_ok] at hpt
    rw [pySubscriptStr_of_lookup haz, exceptBind_ok] at hpt
    injection hpt with hpt
    exact ⟨hj, by rw [← hpt]; rfl, by rw [← hpt]; rfl, by rw [← hpt]; rfl⟩

/-- The transformer's output for the C5 input. -/
def c5Output : Json :=
  match transform_vpc_data_core c5Input with
  | .ok out => out
  | .error _ => .null

/-- C5 witness: the amended mapping at the concrete dashed-name input. -/
theorem c5_witness :
    ∃ subs : List Json,
      jsonLookup c5Output ("subnets") = some (.arr subs) ∧
      ∃ hj : 0 < subs.length,
        jsonLookup (subs.get ⟨0, hj⟩) ("name") =
          some (.str (pyReplaceChar ('-') ('_') ("demo-subnet-1"))) ∧
        jsonLookup (subs.get ⟨0, hj⟩) ("cidr") = some (.str ("10.0.1.0/24")) ∧
        jsonLookup (subs.get ⟨0, hj⟩) ("map_public_ip_on_launch") =
          some (.bool true) :=
  c5_subnet_mapping c5Input c5Output
    ([.obj [("name", .str ("demo-subnet-1")),
            ("cidr_block", .str ("10.0.1.0/24")),
            ("availability_zone", .str ("cn-hangzhou-a"))]])
    0 (by decide) ("demo-subnet-1") (.str ("10.0.1.0/24")) (.str ("cn-hangzhou-a"))
    (by rfl) (by rfl) (by rfl) (by rfl) (by rfl)

/-- Every successful record assembly carries list-valued `vswitches` and
`security_groups` fields. -/
theorem convertTarget_ok_shape {t : Json} {id region : String} {j : Json}
    (h : convertTarget t id region = .ok j) :
    (∃ xs, jsonLookup j ("vswitches") = some (.arr xs)) ∧
    (∃ gs, jsonLookup j ("security_groups") = some (.arr gs)) := by
  rw [convertTarget] at h
  cases g1 : pyDictGet t ("VpcId") with
  | error e => rw [g1, exceptBind_err] at h; exact absurd h (by simp)
  | ok vIdA =>
  rw [g1, exceptBind_ok] at h
  cases g2 : pyDictGet t ("vpc_id") with
  | error e => rw [g2, exceptBind_err] at h; exact absurd h (by simp)
  | ok vIdB =>
  rw [g2, exceptBind_ok] at h
  cases g3 : pyDictGet t ("VpcName") with
  | error e => rw [g3, exceptBind_err] at h; exact absurd h (by simp)
  | ok vNameA =>
  rw [g3, exceptBind_ok] at h
  cases g4 : pyDictGet t ("vpc_name") with
  | error e => rw [g4, exceptBind_err] at h; exact absurd h (by simp)
  | ok vNameB =>
  rw [g4, exceptBind_ok] at h
  cases g5 : pyDictGet t ("CidrBlock") with
  | error e => rw [g5, exceptBind_err] at h; exact absurd h (by simp)
  | ok cA =>
  rw [g5, exceptBind_ok] at h
  cases g6 : pyDictGet t ("cidr_block") with
  | error e => rw [g6, exceptBind_err] at h; exact absurd h (by simp)
  | ok cB =>
  rw [g6, exceptBind_ok] at h
  cases g7 : pyDictGet t ("Status") with
  | error e => rw [g7, exceptBind_err] at h; exact absurd h (by simp)
  | ok stA =>
  rw [g7, exceptBind_ok] at h
  cases g8 : pyDictGet t ("status") with
  | error e => rw [g8, exceptBind_err] at h; exact absurd h (by simp)
  | ok stB =>
  rw [g8, exceptBind_ok] at h
  cases g9 : extractVswitches t region with
  | error e => rw [g9, exceptBind_err] at h; exact absurd h (by simp)
  | ok vsws =>
  rw [g9, exceptBind_ok] at h
  injection h with h
  rw [← h]
  exact ⟨⟨vsws, rfl⟩, ⟨default_security_groups id, rfl⟩⟩

/-- Every successful `try`-body outcome of the converter has the list
shape (either the assembled record or the mock). -/
theorem convertCore_ok_shape {a : Json} {id region : String} {j : Json}
    (h : convertCore a id region = .ok j) :
    (∃ xs, jsonLookup j ("vswitches") = some (.arr xs)) ∧
    (∃ gs, jsonLookup j ("security_groups") = some (.arr gs)) := by
  rw [convertCore] at h
  cases h1 : unwrapBody a with
  | error e => rw [h1, exceptBind_err] at h; exact absurd h (by simp)
  | ok data =>
  rw [h1, exceptBind_ok] at h
  cases h2 : chooseVpcs data with
  | error e => rw [h2, exceptBind_err] at h; exact absurd h (by simp)
  | ok vpcs =>
  rw [h2, exceptBind_ok] at h
  by_cases ht : vpcs.truthy = false
  · rw [if_pos ht] at h
    injection h with h
    rw [← h]
    exact ⟨⟨_, rfl⟩, ⟨_, rfl⟩⟩
  · rw [if_neg ht] at h
    cases h3 : pyIndex0 vpcs with
    | error e => rw [h3, exceptBind_err] at h; exact absurd h (by simp)
    | ok first =>
    rw [h3, exceptBind_ok] at h
    cases h4 : selectTargetStep vpcs first id with
    | error e => rw [h4, exceptBind_err] at h; exact absurd h (by simp)
    | ok target =>
    rw [h4, exceptBind_ok] at h
    exact convertTarget_ok_shape h

/-- C6: for every raw provider response (well-formed, malformed or empty)
the Normalizer is a total function — the blanket `except` converts any
exception of the unwrapping/selection into the deterministic synthetic
mock, so no exception reaches the caller — and the returned record always
carries present, list-valued `vswitches` and `security_groups` fields
(empty lists when data is absent, never missing, never null). -/
theorem c6_normalizer_total_with_list_fields (a : Json) (id region : String) :
    (∃ xs, jsonLookup (convert_alibaba_vpc_format a id region) ("vswitches") =
      some (.arr xs)) ∧
    (∃ gs, jsonLookup (convert_alibaba_vpc_format a id region) ("security_groups") =
      some (.arr gs)) := by
  rw [convert_alibaba_vpc_format]
  cases h : convertCore a id region with
  | ok j => exact convertCore_ok_shape h
  | error e => exact ⟨⟨_, rfl⟩, ⟨_, rfl⟩⟩

/-- C10 counterexample: the first (and only) entry carries a `VpcId` field
(holding the empty string), no entry matches the requested id, and yet the
output's `vpc_id` equals the requested id — because the fallback is decided
by Python truthiness of the `or` chain, not by field presence. -/
theorem c10_counterexample :
    hasKeyB (.obj [("VpcId", .str (""))]) ("VpcId") = true ∧
    jsonLookup (convert_alibaba_vpc_format
      (.obj [("Vpcs", .obj [("Vpc", .arr [.obj [("VpcId", .str (""))]])])])
      ("vpc-req") ("r1")) ("vpc_id") = some (.str ("vpc-req")) := ⟨rfl, rfl⟩

/-- C10 (amended): when the unwrapped collection is non-empty, an id was
requested and no entry's `VpcId`/`vpc_id` equals it, the Normalizer builds
the record from the first entry (never the synthetic mock); every
provider-derived field is the truthiness-based `or` chain over the first
entry's fields, so the requested id appears in the output's `vpc_id`
exactly when the first entry's `VpcId` and `vpc_id` are absent *or falsy*
(for example the empty string), the requested id being the final fallback
of the chain. -/
theorem c10_unmatched_id_uses_first_entry (a d : Json) (id region : String)
    (ff : List (String × Json)) (rest : List Json) (ws : List Json)
    (hid : (id == "") = false)
    (h1 : unwrapBody a = .ok d)
    (h2 : chooseVpcs d = .ok (.arr (.obj ff :: rest)))
    (h3 : findMatching (.obj ff :: rest) id = .ok none)
    (h4 : extractVswitches (.obj ff) region = .ok ws) :
    convert_alibaba_vpc_format a id region = Json.obj
      [("vpc_id", pyOr (dictGetD ff ("VpcId")) (pyOr (dictGetD ff ("vpc_id")) (.str id))),
       ("vpc_name", pyOr (dictGetD ff ("VpcName"))
          (pyOr (dictGetD ff ("vpc_name")) (.str ("vpc-" ++ id)))),
       ("cidr_block", pyOr (dictGetD ff ("CidrBlock"))
          (pyOr (dictGetD ff ("cidr_block")) (.str ("10.0.0.0/16")))),
       ("region", .str region),
       ("status", pyOr (dictGetD ff ("Status"))
          (pyOr (dictGetD ff ("status")) (.str ("Available")))),
       ("vswitches", .arr ws),
       ("security_groups", .arr (default_security_groups id))] ∧
    ((dictGetD ff ("VpcId")).truthy = false →
     (dictGetD ff ("vpc_id")).truthy = false →
     jsonLookup (convert_alibaba_vpc_format a id region) ("vpc_id") =
       some (.str id)) := by
  have hsel : selectTargetStep (.arr (.obj ff :: rest)) (.obj ff) id = .ok (.obj ff) := by
    rw [selectTargetStep, if_neg (by simp [hid])]
    rw [show pyIter (Json.arr (Json.obj ff :: rest)) = .ok (Json.obj ff :: rest) from rfl,
        exceptBind_ok]
    rw [h3, exceptBind_ok]
    rfl
  have htgt : convertTarget (.obj ff) id region = .ok (Json.obj
      [("vpc_id", pyOr (dictGetD ff ("VpcId")) (pyOr (dictGetD ff ("vpc_id")) (.str id))),
       ("vpc_name", pyOr (dictGetD ff ("VpcName"))
          (pyOr (dictGetD ff ("vpc_name")) (.str ("vpc-" ++ id)))),
       ("cidr_block", pyOr (dictGetD ff ("CidrBlock"))
          (pyOr (dictGetD ff ("cidr_block")) (.str ("10.0.0.0/16")))),
       ("region", .str region),
       ("status", pyOr (dictGetD ff ("Status"))
          (pyOr (dictGetD ff ("status")) (.str ("Available")))),
       ("vswitches", .arr ws),
       ("security_groups", .arr (default_security_groups id))]) := by
    rw [convertTarget]
    rw [show pyDictGet (Json.obj ff) ("VpcId") = .ok (dictGetD ff ("VpcId")) from rfl,
        exceptBind_ok]
    rw [show pyDictGet (Json.obj ff) ("vpc_id") = .ok (dictGetD ff ("vpc_id")) from rfl,
        exceptBind_ok]
    rw [show pyDictGet (Json.obj ff) ("VpcName") = .ok (dictGetD ff ("VpcName")) from rfl,
        exceptBind_ok]
    rw [show pyDictGet (Json.obj ff) ("vpc_name") = .ok (dictGetD ff ("vpc_name")) from rfl,
        exceptBind_ok]
    rw [show pyDictGet (Json.obj ff) ("CidrBlock") = .ok (dictGetD ff ("CidrBlock")) from rfl,
        exceptBind_ok]
    rw [show pyDictGet (Json.obj ff) ("cidr_block") = .ok (dictGetD ff ("cidr_block")) from rfl,
        exceptBind_ok]
    rw [show pyDictGet (Json.obj ff) ("Status") = .ok (dictGetD ff ("Status")) from rfl,
        exceptBind_ok]
    rw [show pyDictGet (Json.obj ff) ("status") = .ok (dictGetD ff ("status")) from rfl,
        exceptBind_ok]
    rw [h4, exceptBind_ok]
    rfl
  have hcore : convertCore a id region = convertTarget (.obj ff) id region := by
    rw [convertCore]
    rw [h1, exceptBind_ok, h2, exceptBind_ok]
    rw [if_neg (by simp [Json.truthy])]
    rw [show pyIndex0 (Json.arr (Json.obj ff :: rest)) = .ok (Json.obj ff) from rfl,
        exceptBind_ok]
    rw [hsel, exceptBind_ok]
  have hfull : convert_alibaba_vpc_format a id region = Json.obj
      [("vpc_id", pyOr (dictGetD ff ("VpcId")) (pyOr (dictGetD ff ("vpc_id")) (.str id))),
       ("vpc_name", pyOr (dictGetD ff ("VpcName"))
          (pyOr (dictGetD ff ("vpc_name")) (.str ("vpc-" ++ id)))),
       ("cidr_block", pyOr (dictGetD ff ("CidrBlock"))
          (pyOr (dictGetD ff ("cidr_block")) (.str ("10.0.0.0/16")))),
       ("region", .str region),
       ("status", pyOr (dictGetD ff ("Status"))
          (pyOr (dictGetD ff ("status")) (.str ("Available")))),
       ("vswitches", .arr ws),
       ("security_groups", .arr (default_security_groups id))] := by
    rw [convert_alibaba_vpc_format, hcore, htgt]
  refine ⟨hfull, ?_⟩
  intro t1 t2
  rw [hfull]
  simp [jsonLookup, lookupFields, pyOr, t1, t2]

/-- C10 witness: a first entry with a truthy `VpcId` is used as-is even
though the requested id matches nothing; a first entry whose `VpcId` is the
empty string falls back to the requested id. -/
theorem c10_witness :
    convert_alibaba_vpc_format
      (.obj [("Vpcs", .obj [("Vpc", .arr
        [.obj [("VpcId", .str ("vpc-first")), ("CidrBlock", .str ("10.5.0.0/16"))]])])])
      ("vpc-req") ("r") = Json.obj
      [("vpc_id", .str ("vpc-first")),
       ("vpc_name", .str ("vpc-vpc-req")),
       ("cidr_block", .str ("10.5.0.0/16")),
       ("region", .str ("r")),
       ("status", .str ("Available")),
       ("vswitches", .arr []),
       ("security_groups", .arr (default_security_groups ("vpc-req")))] ∧
    jsonLookup (convert_alibaba_vpc_format
      (.obj [("Vpcs", .obj [("Vpc", .arr [.obj [("VpcId", .str (""))]])])])
      ("vpc-req") ("r")) ("vpc_id") = some (.str ("vpc-req")) :=
  ⟨(c10_unmatched_id_uses_first_entry
      (.obj [("Vpcs", .obj [("Vpc", .arr
        [.obj [("VpcId", .str ("vpc-first")), ("CidrBlock", .str ("10.5.0.0/16"))]])])])
      (.obj [("Vpcs", .obj [("Vpc", .arr
        [.obj [("VpcId", .str ("vpc-first")), ("CidrBlock", .str ("10.5.0.0/16"))]])])])
      ("vpc-req") ("r")
      ([("VpcId", .str ("vpc-first")), ("CidrBlock", .str ("10.5.0.0/16"))])
      ([]) ([]) rfl rfl rfl rfl rfl).1,
   (c10_unmatched_id_uses_first_entry
      (.obj [("Vpcs", .obj [("Vpc", .arr [.obj [("VpcId", .str (""))]])])])
      (.obj [("Vpcs", .obj [("Vpc", .arr [.obj [("VpcId", .str (""))]])])])
      ("vpc-req") ("r")
      ([("VpcId", .str (""))]) ([]) ([]) rfl rfl rfl rfl rfl).2 rfl rfl⟩

/-- Environment of the C1 run: the provider returns opaque text and the LLM
parser yields a VPC record lacking `cidr_block`, so the transform stage
raises internally; all scaffold subprocesses would succeed. -/
def c1Env : Env :=
  { provider := .returnsText ("opaque text"),
    llmParse := some (.obj [("vpc_name", .str ("demo-vpc"))]),
    cdkInit := { returncode := 0, stdout := "", stderr := "" },
    npmInstall := { returncode := 0, stdout := "", stderr := "" },
    cdkBootstrap := { returncode := 0, stdout := "", stderr := "" },
    cdkDeploy := { returncode := 1, stdout := "", stderr := "no credentials" },
    generatorStream := [] }

/-- The full C1 migration run. -/
def c1Run : Except String MigrationState × List Event :=
  run_migration c1Env (.obj [("vpc_id", .str ("vpc-1")), ("region", .str ("cn-hangzhou"))])
    ("demo-proj") ("./out") none none

/-- C1: the transform stage does set `status = "error"` with a non-empty
message on its internal exception, but the engine does *not* short-circuit:
`_build_workflow` wires only unconditional edges, so the generate and
deploy nodes still execute (the `cdk init` and `npm install` subprocesses
run), and the terminal error-handling node `handle_error` never executes —
indeed no edge of the graph enters it at all. -/
theorem c1_error_state_not_short_circuited :
    (transform_vpc_data { initialState (.obj []) ("demo-proj") ("./out") with
        alibaba_vpc_data := .obj [("vpc_name", .str ("demo-vpc"))] }).status = "error" ∧
    ((transform_vpc_data { initialState (.obj []) ("demo-proj") ("./out") with
        alibaba_vpc_data := .obj [("vpc_name", .str ("demo-vpc"))] }).error_message == "") = false ∧
    Event.nodeRun .generate_cdk ∈ c1Run.2 ∧
    Event.subprocess (["cdk", "init", "app", "--language", "typescript"])
      ("./out/demo-proj") ∈ c1Run.2 ∧
    Event.nodeRun .deploy_aws ∈ c1Run.2 ∧
    Event.subprocess (["npm", "install"]) ("") ∈ c1Run.2 ∧
    (c1Run.2.contains (Event.nodeRun .handle_error)) = false ∧
    ([Node.extract_vpc, Node.transform_data, Node.generate_cdk, Node.deploy_aws,
      Node.handle_error].all
        (fun n => nextNode n != some Node.handle_error)) = true ∧
    (match c1Run.1 with | .ok fs => fs.status | .error _ => "") = "error" ∧
    ((match c1Run.1 with | .ok fs => fs.error_message | .error _ => "") == "") = false := by
  decide
